import Mathlib

/-!
Shallow embedding of the core calculation pipeline of `src/foodpl.jsx`
(a pre-visit estimation calculator for restaurant consulting).

JavaScript numbers are modelled as rationals (`ℚ`); the one place where
the source explicitly distinguishes non-finite values (`safeDiv`, which
tests `Number.isFinite`) is modelled by the dedicated type `JsNum` that
has NaN and the two infinities as extra points.  Free-text addresses are
modelled as `List Char`; each `RegExp` in the source's area table is a
plain alternation of literal keywords, modelled as the list of those
keywords, tested by substring containment exactly as `RegExp.test` does
for such patterns.
-/

namespace FoodPL

abbrev Str := List Char

/-- `clamp` from the source: `Math.min(max, Math.max(min, n))`. -/
def clamp (n lo hi : ℚ) : ℚ := min hi (max lo n)

/-- `safeDiv` restricted to finite operands (all values of `ℚ` are finite,
so only the `b === 0` guard of the source remains). -/
def safeDivQ (a b : ℚ) : ℚ := if b = 0 then 0 else a / b

/-- A JavaScript number: a finite rational, NaN, `+Infinity` or `-Infinity`. -/
inductive JsNum where
  | fin (q : ℚ)
  | nan
  | posInf
  | negInf
deriving DecidableEq

/-- `Number.isFinite`. -/
def JsNum.isFinite : JsNum → Bool
  | .fin _ => true
  | _ => false

/-- `safeDiv(a, b)` from the source:
`if (!Number.isFinite(a) || !Number.isFinite(b) || b === 0) return 0; return a / b;`. -/
def safeDiv : JsNum → JsNum → JsNum
  | .fin a, .fin b => if b = 0 then .fin 0 else .fin (a / b)
  | _, _ => .fin 0

-- Area / rent master tables

inductive AreaKey where
  | tokyo_core | tokyo_suburb | osaka_core | osaka_suburb
  | kyoto_core | nagoya_core | regional_city | rural
deriving DecidableEq

structure AreaMaster where
  key : AreaKey
  baseRentPerTsubo : ℚ
  patterns : List (List Str)

/-- Boolean substring test (`RegExp.test` for a literal keyword). -/
def isSubstr (needle hay : Str) : Bool := decide (needle <:+: hay)

/-- One `RegExp` of the table is an alternation of literal keywords:
it matches iff some alternative occurs in the address. -/
def regexTest (alts : List Str) (a : Str) : Bool := alts.any (fun alt => isSubstr alt a)

def tokyoCoreArea : AreaMaster :=
  { key := .tokyo_core, baseRentPerTsubo := 35000,
    patterns := [["東京都".toList],
      (["渋谷", "新宿", "港区", "中央区", "千代田区", "品川", "池袋", "恵比寿", "六本木", "銀座"].map String.toList)] }

def tokyoSuburbArea : AreaMaster :=
  { key := .tokyo_suburb, baseRentPerTsubo := 25000,
    patterns := [["東京都".toList],
      (["立川", "町田", "八王子", "府中", "調布", "武蔵", "多摩"].map String.toList)] }

def osakaCoreArea : AreaMaster :=
  { key := .osaka_core, baseRentPerTsubo := 28000,
    patterns := [["大阪府".toList],
      (["北区", "中央区", "西区", "天王寺", "難波", "梅田", "心斎橋", "本町"].map String.toList)] }

def osakaSuburbArea : AreaMaster :=
  { key := .osaka_suburb, baseRentPerTsubo := 20000,
    patterns := [["大阪府".toList],
      (["吹田", "豊中", "東大阪", "堺", "枚方", "高槻", "守口", "八尾"].map String.toList)] }

def kyotoCoreArea : AreaMaster :=
  { key := .kyoto_core, baseRentPerTsubo := 24000,
    patterns := [["京都府".toList],
      (["中京区", "下京区", "四条", "河原町", "烏丸", "祇園"].map String.toList)] }

def nagoyaCoreArea : AreaMaster :=
  { key := .nagoya_core, baseRentPerTsubo := 22000,
    patterns := [["愛知県".toList],
      (["名古屋", "栄", "名駅", "中区"].map String.toList)] }

def regionalCityArea : AreaMaster :=
  { key := .regional_city, baseRentPerTsubo := 15000,
    patterns := [(["奈良県", "兵庫県", "滋賀県", "和歌山県", "福岡県", "広島県", "宮城県", "北海道"].map String.toList)] }

def ruralArea : AreaMaster :=
  { key := .rural, baseRentPerTsubo := 9000,
    patterns := [(["郡", "町", "村"].map String.toList)] }

/-- The ordered tier table `AREA_MASTER` of the source, in declaration order. -/
def AREA_MASTER : List AreaMaster :=
  [tokyoCoreArea, tokyoSuburbArea, osakaCoreArea, osakaSuburbArea,
   kyotoCoreArea, nagoyaCoreArea, regionalCityArea, ruralArea]

inductive StationDistanceKey where
  | walk_1_3 | walk_4_7 | walk_8_12 | walk_13_plus | unknown
deriving DecidableEq

/-- `STATION_DISTANCE[k].factor`. -/
def stationFactor : StationDistanceKey → ℚ
  | .walk_1_3 => 1.15
  | .walk_4_7 => 1
  | .walk_8_12 => 0.9
  | .walk_13_plus => 0.8
  | .unknown => 1

inductive TradeAreaKey where
  | downtown | station_front | office | residential | roadside | tourism
deriving DecidableEq

/-- `TRADE_AREA[k].factor`. -/
def tradeFactor : TradeAreaKey → ℚ
  | .downtown => 1.2
  | .station_front => 1.1
  | .office => 1.1
  | .residential => 0.95
  | .roadside => 0.9
  | .tourism => 1.25

/-- `String.prototype.trim`: strip leading and trailing whitespace. -/
def trim (s : Str) : Str :=
  ((s.dropWhile Char.isWhitespace).reverse.dropWhile Char.isWhitespace).reverse

/-- A tier matches when ANY of its patterns tests true on the address. -/
def tierMatches (t : AreaMaster) (a : Str) : Bool :=
  t.patterns.any (fun p => regexTest p a)

/-- The `for (const area of AREA_MASTER) { if (area.patterns.some(re => re.test(a))) return area.key; }`
loop of `detectAreaFromAddress`, returning `none` when the loop falls through. -/
def findArea (a : Str) : List AreaMaster → Option AreaKey
  | [] => none
  | t :: rest => if tierMatches t a then some t.key else findArea a rest

/-- `detectAreaFromAddress` from the source. -/
def detectAreaFromAddress (address : Str) : Option AreaKey :=
  if trim address = [] then none else findArea (trim address) AREA_MASTER

/-- `getArea`: `AREA_MASTER.find(x => x.key === key) || AREA_MASTER[0]`. -/
def getArea (key : AreaKey) : AreaMaster :=
  (AREA_MASTER.find? (fun x => x.key == key)).getD tokyoCoreArea

-- Rate presets

inductive IndustryKey where
  | izakaya | yakiniku | cafe | ramen | restaurant | takeout
deriving DecidableEq

inductive ScenarioKey where
  | low | standard | high
deriving DecidableEq

structure Rates where
  food : ℚ
  labor : ℚ
  rent : ℚ
deriving DecidableEq

/-- The static `INDUSTRY_PRESETS` table: `(industry, scenario) ↦ {food, labor, rent}`. -/
def INDUSTRY_PRESETS : IndustryKey → ScenarioKey → Rates
  | .izakaya, .low => ⟨0.28, 0.26, 0.09⟩
  | .izakaya, .standard => ⟨0.30, 0.30, 0.10⟩
  | .izakaya, .high => ⟨0.33, 0.34, 0.12⟩
  | .yakiniku, .low => ⟨0.34, 0.24, 0.09⟩
  | .yakiniku, .standard => ⟨0.38, 0.28, 0.10⟩
  | .yakiniku, .high => ⟨0.42, 0.32, 0.12⟩
  | .cafe, .low => ⟨0.24, 0.28, 0.10⟩
  | .cafe, .standard => ⟨0.28, 0.32, 0.12⟩
  | .cafe, .high => ⟨0.32, 0.36, 0.14⟩
  | .ramen, .low => ⟨0.26, 0.22, 0.08⟩
  | .ramen, .standard => ⟨0.30, 0.25, 0.10⟩
  | .ramen, .high => ⟨0.34, 0.28, 0.12⟩
  | .restaurant, .low => ⟨0.28, 0.26, 0.09⟩
  | .restaurant, .standard => ⟨0.32, 0.30, 0.10⟩
  | .restaurant, .high => ⟨0.36, 0.34, 0.12⟩
  | .takeout, .low => ⟨0.32, 0.18, 0.06⟩
  | .takeout, .standard => ⟨0.35, 0.20, 0.08⟩
  | .takeout, .high => ⟨0.38, 0.24, 0.10⟩

inductive UnitType where
  | per_person | per_group
deriving DecidableEq

-- Input record and calculation pipeline

/-- The caller-supplied input record (the component's input state). -/
structure InputRecord where
  address : Str
  industry : IndustryKey
  scenario : ScenarioKey
  unitType : UnitType
  unitPrice : ℚ
  peoplePerGroup : ℚ
  addGroupsPerDay : ℚ
  seats : ℚ
  adSpend : ℚ
  daysPerMonth : ℚ
  useBaseline : Bool
  turnover : ℚ
  occupancy : ℚ
  autoDetectArea : Bool
  area : AreaKey
  stationDistance : StationDistanceKey
  tradeArea : TradeAreaKey
  seatsPerTsubo : ℚ
  autoSetRentRate : Bool
  manualRates : Bool
  foodRate : ℚ
  laborRate : ℚ
  rentRate : ℚ

structure BaselineEstimate where
  ppg : ℚ
  seatsN : ℚ
  days : ℚ
  pricePerPerson : ℚ
  coversPerDay : ℚ
  baselineRevenueDaily : ℚ
  baselineRevenueMonthly : ℚ

/-- The `baseline` memo of the source (seat-based baseline revenue). -/
def baseline (i : InputRecord) : BaselineEstimate :=
  { ppg := clamp i.peoplePerGroup 1 20
    seatsN := clamp i.seats 0 500
    days := clamp i.daysPerMonth 1 31
    pricePerPerson :=
      match i.unitType with
      | .per_person => i.unitPrice
      | .per_group => safeDivQ i.unitPrice (clamp i.peoplePerGroup 1 20)
    coversPerDay := clamp i.seats 0 500 * i.occupancy * i.turnover
    baselineRevenueDaily :=
      clamp i.seats 0 500 * i.occupancy * i.turnover *
        (match i.unitType with
         | .per_person => i.unitPrice
         | .per_group => safeDivQ i.unitPrice (clamp i.peoplePerGroup 1 20))
    baselineRevenueMonthly :=
      clamp i.seats 0 500 * i.occupancy * i.turnover *
        (match i.unitType with
         | .per_person => i.unitPrice
         | .per_group => safeDivQ i.unitPrice (clamp i.peoplePerGroup 1 20)) *
        clamp i.daysPerMonth 1 31 }

structure RentEstimate where
  tsubo : ℚ
  rentPerTsubo : ℚ
  estimatedRentMonthly : ℚ
  rentRateSuggested : ℚ
  baselineSales : ℚ

/-- The `rentSuggestion` memo of the source, as a function of the resolved
area key, the factor keys, seats, seats-per-tsubo and the baseline monthly
revenue. -/
def rentSuggestion (area : AreaKey) (stationDistance : StationDistanceKey)
    (tradeArea : TradeAreaKey) (seats seatsPerTsubo baselineSales : ℚ) : RentEstimate :=
  { tsubo := safeDivQ (clamp seats 0 500) (clamp seatsPerTsubo 0.8 4.0)
    rentPerTsubo := (getArea area).baseRentPerTsubo * stationFactor stationDistance * tradeFactor tradeArea
    estimatedRentMonthly :=
      safeDivQ (clamp seats 0 500) (clamp seatsPerTsubo 0.8 4.0) *
        ((getArea area).baseRentPerTsubo * stationFactor stationDistance * tradeFactor tradeArea)
    rentRateSuggested :=
      if 0 < baselineSales then
        clamp (safeDivQ (clamp seats 0 500) (clamp seatsPerTsubo 0.8 4.0) *
          ((getArea area).baseRentPerTsubo * stationFactor stationDistance * tradeFactor tradeArea) /
          baselineSales) 0 0.35
      else 0
    baselineSales := baselineSales }

-- Effective-rate state and the two React effects that manage it

/-- The component's stored rate state: the `foodRate`/`laborRate`/`rentRate`
`useState` values. -/
structure RatesState where
  food : ℚ
  labor : ℚ
  rent : ℚ
deriving DecidableEq

/-- The effect at lines 325-336 ("Sync preset -> local rates when
industry/scenario changes (if not manual)"): when `manualRates` is false it
sets food/labor to the preset and rent to the suggestion (when
`autoSetRentRate` and the suggestion is positive) or else the preset rent.
Its React dependency array is `[industry, scenario]` only, so it runs only
when industry or scenario changes. -/
def effectSyncPresetRates (manualRates autoSetRentRate : Bool) (preset : Rates)
    (suggested : ℚ) (s : RatesState) : RatesState :=
  if manualRates then s
  else
    { food := preset.food
      labor := preset.labor
      rent := if autoSetRentRate = true ∧ 0 < suggested then suggested else preset.rent }

/-- The effect at lines 339-344 ("Whenever the rent suggestion changes,
optionally auto-apply it"): guards `autoSetRentRate`, `manualRates` and a
positive suggestion, then sets only `rentRate`.  Its dependency array is
`[autoSetRentRate, manualRates, rentSuggestion.rentRateSuggested]`, so it is
the only effect that runs when `manualRates` or `autoSetRentRate` toggles. -/
def effectAutoApplyRent (autoSetRentRate manualRates : Bool) (suggested : ℚ)
    (s : RatesState) : RatesState :=
  if autoSetRentRate = false then s
  else if manualRates = true then s
  else if suggested ≤ 0 then s
  else { s with rent := suggested }

/-- The steady-state stored rates after the effects have settled, given the
flags (§4.4 of the spec): user rates in MANUAL, preset/auto rates in AUTO. -/
def storedRates (i : InputRecord) (suggested : ℚ) : RatesState :=
  { food := if i.manualRates then i.foodRate else (INDUSTRY_PRESETS i.industry i.scenario).food
    labor := if i.manualRates then i.laborRate else (INDUSTRY_PRESETS i.industry i.scenario).labor
    rent :=
      if i.manualRates then i.rentRate
      else if i.autoSetRentRate = true ∧ 0 < suggested then suggested
      else (INDUSTRY_PRESETS i.industry i.scenario).rent }

-- The `normalized` memo (projection engine)

structure Normalized where
  ppg : ℚ
  seatsN : ℚ
  addG : ℚ
  days : ℚ
  food : ℚ
  labor : ℚ
  rent : ℚ
  addRevenueDaily : ℚ
  addRevenueMonthly : ℚ
  addGrossProfit : ℚ
  addAfterFL : ℚ
  addAfterFLR : ℚ
  roas : ℚ
  gpRoas : ℚ
  breakevenGroupsPerDay_Gross : ℚ
  coversPerDay : ℚ
  baselineRevenueDaily : ℚ
  baselineRevenueMonthly : ℚ
  baselineFood : ℚ
  baselineLabor : ℚ
  baselineRent : ℚ
  baselineOperatingProfitApprox : ℚ
  fl : ℚ
  flr : ℚ

/-- The `normalized` memo of the source (lines 346-411), as a function of the
input record and the stored rate state it reads (`foodRate`/`laborRate`/
`rentRate`). -/
def normalized (i : InputRecord) (r : RatesState) : Normalized :=
  { ppg := (baseline i).ppg
    seatsN := (baseline i).seatsN
    addG := clamp i.addGroupsPerDay 0 200
    days := (baseline i).days
    food := clamp r.food 0 0.95
    labor := clamp r.labor 0 0.95
    rent := clamp r.rent 0 0.95
    addRevenueDaily :=
      match i.unitType with
      | .per_person => i.unitPrice * clamp i.addGroupsPerDay 0 200 * (baseline i).ppg
      | .per_group => i.unitPrice * clamp i.addGroupsPerDay 0 200
    addRevenueMonthly :=
      (match i.unitType with
       | .per_person => i.unitPrice * clamp i.addGroupsPerDay 0 200 * (baseline i).ppg
       | .per_group => i.unitPrice * clamp i.addGroupsPerDay 0 200) * (baseline i).days
    addGrossProfit :=
      (match i.unitType with
       | .per_person => i.unitPrice * clamp i.addGroupsPerDay 0 200 * (baseline i).ppg
       | .per_group => i.unitPrice * clamp i.addGroupsPerDay 0 200) * (baseline i).days *
        (1 - clamp r.food 0 0.95)
    addAfterFL :=
      (match i.unitType with
       | .per_person => i.unitPrice * clamp i.addGroupsPerDay 0 200 * (baseline i).ppg
       | .per_group => i.unitPrice * clamp i.addGroupsPerDay 0 200) * (baseline i).days *
        (1 - clamp r.food 0 0.95 - clamp r.labor 0 0.95)
    addAfterFLR :=
      (match i.unitType with
       | .per_person => i.unitPrice * clamp i.addGroupsPerDay 0 200 * (baseline i).ppg
       | .per_group => i.unitPrice * clamp i.addGroupsPerDay 0 200) * (baseline i).days *
        (1 - clamp r.food 0 0.95 - clamp r.labor 0 0.95 - clamp r.rent 0 0.95)
    roas :=
      safeDivQ
        ((match i.unitType with
          | .per_person => i.unitPrice * clamp i.addGroupsPerDay 0 200 * (baseline i).ppg
          | .per_group => i.unitPrice * clamp i.addGroupsPerDay 0 200) * (baseline i).days)
        i.adSpend
    gpRoas :=
      safeDivQ
        ((match i.unitType with
          | .per_person => i.unitPrice * clamp i.addGroupsPerDay 0 200 * (baseline i).ppg
          | .per_group => i.unitPrice * clamp i.addGroupsPerDay 0 200) * (baseline i).days *
          (1 - clamp r.food 0 0.95))
        i.adSpend
    breakevenGroupsPerDay_Gross :=
      safeDivQ i.adSpend
        ((match i.unitType with
          | .per_person => i.unitPrice * (baseline i).ppg * (1 - clamp r.food 0 0.95)
          | .per_group => i.unitPrice * (1 - clamp r.food 0 0.95)) * (baseline i).days)
    coversPerDay := (baseline i).coversPerDay
    baselineRevenueDaily := (baseline i).baselineRevenueDaily
    baselineRevenueMonthly := (baseline i).baselineRevenueMonthly
    baselineFood := (baseline i).baselineRevenueMonthly * clamp r.food 0 0.95
    baselineLabor := (baseline i).baselineRevenueMonthly * clamp r.labor 0 0.95
    baselineRent := (baseline i).baselineRevenueMonthly * clamp r.rent 0 0.95
    baselineOperatingProfitApprox :=
      (baseline i).baselineRevenueMonthly -
        (baseline i).baselineRevenueMonthly * clamp r.food 0 0.95 -
        (baseline i).baselineRevenueMonthly * clamp r.labor 0 0.95 -
        (baseline i).baselineRevenueMonthly * clamp r.rent 0 0.95 - i.adSpend
    fl := clamp r.food 0 0.95 + clamp r.labor 0 0.95
    flr := clamp r.food 0 0.95 + clamp r.labor 0 0.95 + clamp r.rent 0 0.95 }

-- The whole computation (§6 of the spec)

/-- The resolved area: the auto-detect effect (lines 268-272) overwrites the
explicit `area` selection whenever auto-detection is on and finds a match. -/
def effectiveArea (i : InputRecord) : AreaKey :=
  if i.autoDetectArea then (detectAreaFromAddress i.address).getD i.area else i.area

/-- `compute`: the single logical operation of the core — baseline estimate,
rent suggestion, settled effective rates, and the projection. -/
structure ComputeOutput where
  baselineOut : BaselineEstimate
  rentEstimate : RentEstimate
  effectiveRates : Rates
  projection : Normalized

/-- The suggested rent ratio the component actually computes for input `i`. -/
def suggestedOf (i : InputRecord) : ℚ :=
  (rentSuggestion (effectiveArea i) i.stationDistance i.tradeArea i.seats i.seatsPerTsubo
    (baseline i).baselineRevenueMonthly).rentRateSuggested

def compute (i : InputRecord) : ComputeOutput :=
  { baselineOut := baseline i
    rentEstimate :=
      rentSuggestion (effectiveArea i) i.stationDistance i.tradeArea i.seats i.seatsPerTsubo
        (baseline i).baselineRevenueMonthly
    effectiveRates :=
      { food := clamp (storedRates i (suggestedOf i)).food 0 0.95
        labor := clamp (storedRates i (suggestedOf i)).labor 0 0.95
        rent := clamp (storedRates i (suggestedOf i)).rent 0 0.95 }
    projection := normalized i (storedRates i (suggestedOf i)) }

-- Spec-side definition of the area resolver (for the refinement claim)

/-- Modelled from the spec's words for §4.2: trim the address; if empty return
`none`; otherwise scan the ordered tiers in declaration order and return the
FIRST tier any of whose rules matches, `none` when no tier matches. -/
def detectAreaSpec (address : Str) : Option AreaKey :=
  if trim address = [] then none
  else (AREA_MASTER.find? (fun t => tierMatches t (trim address))).map AreaMaster.key

-- Concrete input records used by witnesses and counterexamples

/-- End-to-end scenario 1 of the spec (the component's default inputs). -/
def scenario1Input : InputRecord :=
  { address := [], industry := .izakaya, scenario := .standard, unitType := .per_person,
    unitPrice := 6000, peoplePerGroup := 2, addGroupsPerDay := 1, seats := 30,
    adSpend := 100000, daysPerMonth := 26, useBaseline := true, turnover := 2,
    occupancy := 0.65, autoDetectArea := false, area := .regional_city,
    stationDistance := .walk_4_7, tradeArea := .station_front, seatsPerTsubo := 2,
    autoSetRentRate := true, manualRates := false, foodRate := 0.3, laborRate := 0.3,
    rentRate := 0.1 }

/-- Scenario 1 with baseline estimation switched off; used to probe whether
`occupancy`/`turnover` can still influence outputs when `useBaseline = false`. -/
def c8Input : InputRecord := { scenario1Input with useBaseline := false }

/-- Scenario 1 with `manualRates = true` and a user-supplied rent rate 0.5. -/
def c4Input : InputRecord := { scenario1Input with manualRates := true, rentRate := 1/2 }

end FoodPL

namespace FoodPL

-- Helper lemmas shared across the development

theorem clamp_eq_of {n lo hi : ℚ} (h1 : lo ≤ n) (h2 : n ≤ hi) : clamp n lo hi = n := by
  unfold clamp
  rw [max_eq_right h1, min_eq_right h2]

theorem clamp_nonneg {n hi : ℚ} (h : 0 ≤ hi) : 0 ≤ clamp n 0 hi :=
  le_min h (le_max_left 0 n)

theorem clamp_le_hi (n lo hi : ℚ) : clamp n lo hi ≤ hi := min_le_left hi _

theorem clamp_eq_hi {n lo hi : ℚ} (h1 : lo ≤ n) (h2 : hi ≤ n) : clamp n lo hi = hi := by
  unfold clamp
  rw [max_eq_right h1, min_eq_left h2]

/-- The early-return loop of `detectAreaFromAddress` computes the first tier
(in declaration order) any of whose rules matches — i.e. `List.find?`. -/
theorem findArea_eq_find? (a : Str) (l : List AreaMaster) :
    findArea a l = (l.find? (fun t => tierMatches t a)).map AreaMaster.key := by
  induction l with
  | nil => rfl
  | cons t rest ih =>
    by_cases h : tierMatches t a
    · simp [findArea, h, List.find?_cons_of_pos]
    · simp only [Bool.not_eq_true] at h
      simp [findArea, h, List.find?_cons_of_neg, ih]

theorem findArea_cons (a : Str) (t : AreaMaster) (rest : List AreaMaster) :
    findArea a (t :: rest) = if tierMatches t a then some t.key else findArea a rest := rfl

theorem getArea_tokyo_core : getArea .tokyo_core = tokyoCoreArea := rfl

theorem getArea_regional_city : getArea .regional_city = regionalCityArea := rfl

end FoodPL

namespace FoodPL

/-- C6: the baseline revenue estimator clamps `peoplePerGroup` to [1,20],
`seats` to [0,500] and `daysPerMonth` to [1,31]; the per-person price is
`unitPrice` for per-person pricing and the safe division
`unitPrice / peoplePerGroup` for per-group pricing; `coversPerDay = seats ×
occupancy × turnover`, `dailyRevenue = coversPerDay × pricePerPerson` and
`monthlyRevenue = dailyRevenue × daysPerMonth`.  The function is a total Lean
function, so it never raises. -/
theorem baseline_estimator_spec (i : InputRecord) :
    (baseline i).ppg = clamp i.peoplePerGroup 1 20 ∧
    (baseline i).seatsN = clamp i.seats 0 500 ∧
    (baseline i).days = clamp i.daysPerMonth 1 31 ∧
    (baseline i).pricePerPerson =
      (match i.unitType with
       | .per_person => i.unitPrice
       | .per_group => safeDivQ i.unitPrice (clamp i.peoplePerGroup 1 20)) ∧
    (baseline i).coversPerDay = clamp i.seats 0 500 * i.occupancy * i.turnover ∧
    (baseline i).baselineRevenueDaily = (baseline i).coversPerDay * (baseline i).pricePerPerson ∧
    (baseline i).baselineRevenueMonthly =
      (baseline i).baselineRevenueDaily * clamp i.daysPerMonth 1 31 :=
  ⟨rfl, rfl, rfl, rfl, rfl, rfl, rfl⟩

/-- C7: `safeDiv` is total; it returns 0 whenever the divisor is zero or
either operand is non-finite (never Infinity, NaN or an error), and otherwise
returns the exact quotient; in particular `safeDiv x 0 = 0` for finite `x`
and `safeDiv NaN y = 0`. -/
theorem safeDiv_total :
    (∀ a b : JsNum,
      b = .fin 0 ∨ a.isFinite = false ∨ b.isFinite = false → safeDiv a b = .fin 0) ∧
    (∀ qa qb : ℚ, qb ≠ 0 → safeDiv (.fin qa) (.fin qb) = .fin (qa / qb)) ∧
    (∀ q : ℚ, safeDiv (.fin q) (.fin 0) = .fin 0) ∧
    (∀ y : JsNum, safeDiv .nan y = .fin 0) := by
  refine ⟨?_, ?_, ?_, ?_⟩
  · rintro a b (rfl | ha | hb)
    · cases a <;> simp [safeDiv]
    · cases a <;> simp [JsNum.isFinite] at ha ⊢ <;> cases b <;> simp [safeDiv]
    · cases b <;> simp [JsNum.isFinite] at hb ⊢ <;> cases a <;> simp [safeDiv]
  · intro qa qb h
    simp [safeDiv, h]
  · intro q
    simp [safeDiv]
  · intro y
    cases y <;> simp [safeDiv]

/-- Witness for C7: `safeDiv 5 0 = 0` via the zero-divisor branch of the
theorem, and `safeDiv 7 2 = 7/2` via its non-zero branch. -/
theorem safeDiv_total_witness :
    safeDiv (.fin 5) (.fin 0) = .fin 0 ∧ safeDiv (.fin 7) (.fin 2) = .fin (7 / 2) :=
  ⟨safeDiv_total.1 (.fin 5) (.fin 0) (Or.inl rfl),
   safeDiv_total.2.1 7 2 (by norm_num)⟩

/-- C4: with `manualRates = true` the effective rent rate used by the
projection engine is the user-supplied `rentRate` clamped to [0, 0.95] — for
every value of `autoSetRentRate` and every other input — and both rate
effects leave the stored rates untouched, so the auto-suggested ratio can
never displace the user value. -/
theorem manual_rates_precedence (i : InputRecord) (h : i.manualRates = true) :
    (compute i).effectiveRates.rent = clamp i.rentRate 0 0.95 ∧
    (∀ b : Bool,
      (compute { i with autoSetRentRate := b }).effectiveRates.rent = clamp i.rentRate 0 0.95) ∧
    (∀ (a : Bool) (p : Rates) (sug : ℚ) (s : RatesState),
      effectSyncPresetRates true a p sug s = s ∧ effectAutoApplyRent a true sug s = s) := by
  refine ⟨?_, ?_, ?_⟩
  · simp [compute, storedRates, h]
  · intro b
    simp [compute, storedRates, h]
  · intro a p sug s
    constructor
    · simp [effectSyncPresetRates]
    · cases a <;> simp [effectAutoApplyRent]

/-- Witness for C4: on the concrete input `c4Input` (manual rates on,
user rent rate 1/2) the effective rent is `clamp (1/2) 0 0.95 = 1/2`. -/
theorem manual_rates_precedence_witness :
    (compute c4Input).effectiveRates.rent = 1 / 2 := by
  have h := (manual_rates_precedence c4Input rfl).1
  rw [h]
  norm_num [c4Input, scenario1Input, clamp, min_def, max_def]

/-- Counterexample for C5: toggling `manualRates` from true to false re-runs
only the rent auto-apply effect (its dependency array is `[autoSetRentRate,
manualRates, rentSuggestion.rentRateSuggested]`), because the preset-sync
effect's dependency array is `[industry, scenario]` alone.  Starting from the
stored manual rates (food 1/2, labor 2/5, rent 3/10) with industry `izakaya`
and scenario `standard`, the stored (and effective) food rate after the toggle
is still 1/2, not the preset 3/10 — the claimed preset re-application does not
happen and the stale manual value lingers. -/
theorem rate_toggle_counterexample :
    (effectAutoApplyRent true false (1/5) ⟨1/2, 2/5, 3/10⟩).food = 1/2 ∧
    (effectAutoApplyRent true false (1/5) ⟨1/2, 2/5, 3/10⟩).labor = 2/5 ∧
    (INDUSTRY_PRESETS .izakaya .standard).food = 3/10 ∧
    (INDUSTRY_PRESETS .izakaya .standard).labor = 3/10 ∧
    clamp (effectAutoApplyRent true false (1/5) ⟨1/2, 2/5, 3/10⟩).food 0 0.95 = 1/2 ∧
    (effectAutoApplyRent true false (1/5) ⟨1/2, 2/5, 3/10⟩).food ≠
      (INDUSTRY_PRESETS .izakaya .standard).food := by
  refine ⟨?_, ?_, ?_, ?_, ?_, ?_⟩
  · norm_num [effectAutoApplyRent]
  · norm_num [effectAutoApplyRent]
  · norm_num [INDUSTRY_PRESETS]
  · norm_num [INDUSTRY_PRESETS]
  · norm_num [effectAutoApplyRent, clamp, min_def, max_def]
  · norm_num [effectAutoApplyRent, INDUSTRY_PRESETS]

/-- C5 as amended: toggling `manualRates` (or `autoSetRentRate`) re-runs only
the rent auto-apply effect, which sets `rentRate` to the suggestion when
`autoSetRentRate` is on and the suggestion is positive and leaves food and
labor untouched; the preset food/labor are re-applied by the preset-sync
effect only when `industry` or `scenario` changes (and then they do equal the
preset lookup, with no stale value). -/
theorem rate_toggle_amended (a : Bool) (sug : ℚ) (s : RatesState) (p : Rates) :
    (effectAutoApplyRent a false sug s).food = s.food ∧
    (effectAutoApplyRent a false sug s).labor = s.labor ∧
    (effectAutoApplyRent a false sug s).rent =
      (if a = true ∧ 0 < sug then sug else s.rent) ∧
    (effectSyncPresetRates false a p sug s).food = p.food ∧
    (effectSyncPresetRates false a p sug s).labor = p.labor := by
  refine ⟨?_, ?_, ?_, ?_, ?_⟩
  · cases a
    · simp [effectAutoApplyRent]
    · rcases le_or_lt sug 0 with h | h
      · simp [effectAutoApplyRent, h]
      · simp [effectAutoApplyRent, not_le.mpr h]
  · cases a
    · simp [effectAutoApplyRent]
    · rcases le_or_lt sug 0 with h | h
      · simp [effectAutoApplyRent, h]
      · simp [effectAutoApplyRent, not_le.mpr h]
  · cases a
    · simp [effectAutoApplyRent]
    · rcases le_or_lt sug 0 with h | h
      · simp [effectAutoApplyRent, h, not_lt.mpr h]
      · simp [effectAutoApplyRent, h, not_le.mpr h]
  · simp [effectSyncPresetRates]
  · simp [effectSyncPresetRates]

/-- C1: in the projection engine, `incrementalRevenueDaily = unitPrice ×
addGroupsPerDay × peoplePerGroup` for per-person pricing (and `× 1` for
per-group pricing), for all in-range inputs; and on the concrete scenario-1
input (per-person 6000, 2 people/group, +1 group/day, 26 days, food 0.30,
labor 0.30, rent 0.10, ad spend 100000) the outputs are exactly
`incrementalRevenueMonthly = 312000`, `incrementalGrossProfit = 218400`,
`roas = 3.12` and `grossProfitRoas = 2.184`. -/
theorem projection_revenue_formula :
    (∀ (i : InputRecord) (r : RatesState), i.unitType = .per_person →
      1 ≤ i.peoplePerGroup → i.peoplePerGroup ≤ 20 →
      0 ≤ i.addGroupsPerDay → i.addGroupsPerDay ≤ 200 →
      (normalized i r).addRevenueDaily = i.unitPrice * i.addGroupsPerDay * i.peoplePerGroup) ∧
    (∀ (i : InputRecord) (r : RatesState), i.unitType = .per_group →
      0 ≤ i.addGroupsPerDay → i.addGroupsPerDay ≤ 200 →
      (normalized i r).addRevenueDaily = i.unitPrice * i.addGroupsPerDay * 1) ∧
    (normalized scenario1Input ⟨0.30, 0.30, 0.10⟩).addRevenueMonthly = 312000 ∧
    (normalized scenario1Input ⟨0.30, 0.30, 0.10⟩).addGrossProfit = 218400 ∧
    (normalized scenario1Input ⟨0.30, 0.30, 0.10⟩).roas = 3.12 ∧
    (normalized scenario1Input ⟨0.30, 0.30, 0.10⟩).gpRoas = 2.184 := by
  refine ⟨?_, ?_, ?_, ?_, ?_, ?_⟩
  · intro i r ht h1 h2 h3 h4
    simp [normalized, baseline, ht, clamp_eq_of h1 h2, clamp_eq_of h3 h4]
  · intro i r ht h3 h4
    simp [normalized, baseline, ht, clamp_eq_of h3 h4]
  · norm_num [normalized, baseline, scenario1Input, clamp, min_def, max_def]
  · norm_num [normalized, baseline, scenario1Input, clamp, min_def, max_def]
  · norm_num [normalized, baseline, scenario1Input, clamp, safeDivQ, min_def, max_def]
  · norm_num [normalized, baseline, scenario1Input, clamp, safeDivQ, min_def, max_def]

/-- Witness for C1: scenario 1's inputs satisfy the range hypotheses and give
`incrementalRevenueDaily = 6000 × 1 × 2`. -/
theorem projection_revenue_formula_witness :
    (normalized scenario1Input ⟨0.30, 0.30, 0.10⟩).addRevenueDaily = 6000 * 1 * 2 := by
  have h := projection_revenue_formula.1 scenario1Input ⟨0.30, 0.30, 0.10⟩ rfl
    (by norm_num [scenario1Input]) (by norm_num [scenario1Input])
    (by norm_num [scenario1Input]) (by norm_num [scenario1Input])
  rw [h]
  norm_num [scenario1Input]

/-- C9: per-group and per-person pricing agree on incremental revenue whenever
the per-group price is the per-person price times `peoplePerGroup`: for every
other input, every rate state and every in-range `peoplePerGroup`, the daily
(and hence monthly) incremental revenue coincides; concretely, per-group price
`6000 × 2` with 2 people/group gives `incrementalRevenueDaily = 12000`. -/
theorem per_group_per_person_agree :
    (∀ (i : InputRecord) (r : RatesState) (p ppg : ℚ), 1 ≤ ppg → ppg ≤ 20 →
      (normalized { i with unitType := .per_group, unitPrice := p * ppg, peoplePerGroup := ppg }
          r).addRevenueDaily =
        (normalized { i with unitType := .per_person, unitPrice := p, peoplePerGroup := ppg }
          r).addRevenueDaily ∧
      (normalized { i with unitType := .per_group, unitPrice := p * ppg, peoplePerGroup := ppg }
          r).addRevenueMonthly =
        (normalized { i with unitType := .per_person, unitPrice := p, peoplePerGroup := ppg }
          r).addRevenueMonthly) ∧
    (normalized { scenario1Input with unitType := .per_group, unitPrice := 12000 }
      ⟨0.30, 0.30, 0.10⟩).addRevenueDaily = 12000 := by
  constructor
  · intro i r p ppg h1 h2
    constructor
    · simp only [normalized, baseline, clamp_eq_of h1 h2]
      ring
    · simp only [normalized, baseline, clamp_eq_of h1 h2]
      ring
  · norm_num [normalized, baseline, scenario1Input, clamp, min_def, max_def]

/-- Witness for C9: at `p = 6000`, `peoplePerGroup = 2`, the per-group run
with price `6000 × 2` and the per-person run with price 6000 give the same
daily incremental revenue. -/
theorem per_group_per_person_agree_witness :
    (normalized { scenario1Input with
        unitType := .per_group,
        unitPrice := 6000 * 2,
        peoplePerGroup := 2 } ⟨0.30, 0.30, 0.10⟩).addRevenueDaily =
      (normalized { scenario1Input with
        unitType := .per_person,
        unitPrice := 6000,
        peoplePerGroup := 2 } ⟨0.30, 0.30, 0.10⟩).addRevenueDaily :=
  (per_group_per_person_agree.1 scenario1Input ⟨0.30, 0.30, 0.10⟩ 6000 2
    (by norm_num) (by norm_num)).1

/-- C3: the suggested rent ratio is always in [0, 0.35]; it is 0 when the
baseline monthly revenue is 0 (no division by zero), equals
`clamp(estimatedMonthlyRent / baselineMonthlyRevenue, 0, 0.35)` when the
baseline revenue is positive, and is exactly 0.35 whenever the raw quotient
exceeds 0.35. -/
theorem rent_ratio_clamped (area : AreaKey) (sd : StationDistanceKey) (ta : TradeAreaKey)
    (seats spt bs : ℚ) :
    0 ≤ (rentSuggestion area sd ta seats spt bs).rentRateSuggested ∧
    (rentSuggestion area sd ta seats spt bs).rentRateSuggested ≤ 0.35 ∧
    (bs = 0 → (rentSuggestion area sd ta seats spt bs).rentRateSuggested = 0) ∧
    (0 < bs → (rentSuggestion area sd ta seats spt bs).rentRateSuggested =
      clamp ((rentSuggestion area sd ta seats spt bs).estimatedRentMonthly / bs) 0 0.35) ∧
    (0 < bs → 0.35 < (rentSuggestion area sd ta seats spt bs).estimatedRentMonthly / bs →
      (rentSuggestion area sd ta seats spt bs).rentRateSuggested = 0.35) := by
  have hproj : (rentSuggestion area sd ta seats spt bs).rentRateSuggested =
      if 0 < bs then
        clamp ((rentSuggestion area sd ta seats spt bs).estimatedRentMonthly / bs) 0 0.35
      else 0 := rfl
  refine ⟨?_, ?_, ?_, ?_, ?_⟩
  · rw [hproj]
    split
    · exact clamp_nonneg (by norm_num)
    · exact le_refl 0
  · rw [hproj]
    split
    · exact clamp_le_hi _ _ _
    · norm_num
  · intro h0
    rw [hproj, if_neg]
    rw [h0]
    exact lt_irrefl 0
  · intro h
    rw [hproj, if_pos h]
  · intro h hq
    rw [hproj, if_pos h]
    exact clamp_eq_hi (le_of_lt (lt_trans (by norm_num) hq)) (le_of_lt hq)

/-- Witness for C3: tokyo-core base rent with the highest factors, 30 seats at
2 seats/tsubo and a small positive baseline revenue 35640 give a raw quotient
above 0.35, and the suggested ratio is exactly 0.35. -/
theorem rent_ratio_clamped_witness :
    0 < (35640 : ℚ) ∧
    0.35 < (rentSuggestion .tokyo_core .walk_1_3 .downtown 30 2 35640).estimatedRentMonthly / 35640 ∧
    (rentSuggestion .tokyo_core .walk_1_3 .downtown 30 2 35640).rentRateSuggested = 0.35 := by
  have h1 : (0 : ℚ) < 35640 := by norm_num
  have hE : (rentSuggestion .tokyo_core .walk_1_3 .downtown 30 2 35640).estimatedRentMonthly
      = 724500 := by
    norm_num [rentSuggestion, safeDivQ, clamp, min_def, max_def, getArea_tokyo_core,
      tokyoCoreArea, stationFactor, tradeFactor]
  have h2 : (0.35 : ℚ) <
      (rentSuggestion .tokyo_core .walk_1_3 .downtown 30 2 35640).estimatedRentMonthly / 35640 := by
    rw [hE]
    norm_num
  exact ⟨h1, h2, (rent_ratio_clamped .tokyo_core .walk_1_3 .downtown 30 2 35640).2.2.2.2 h1 h2⟩

/-- C2: the area resolver trims the address and returns `none` on an empty
trimmed address; otherwise it scans the tier table in declaration order, a
tier matching when ANY of its rules matches as a substring test, and returns
the first matching tier (`List.find?` on the ordered table), or `none` when
no tier matches; being a total Lean function it is pure and never fails. -/
theorem area_resolver_spec (address : Str) :
    detectAreaFromAddress address = detectAreaSpec address ∧
    (trim address = [] → detectAreaFromAddress address = none) ∧
    ((∀ t ∈ AREA_MASTER, tierMatches t (trim address) = false) →
      detectAreaFromAddress address = none) := by
  refine ⟨?_, ?_, ?_⟩
  · unfold detectAreaFromAddress detectAreaSpec
    by_cases h : trim address = []
    · simp [h]
    · simp [h, findArea_eq_find?]
  · intro h
    simp [detectAreaFromAddress, h]
  · intro h
    unfold detectAreaFromAddress
    split
    · rfl
    · rw [findArea_eq_find?, List.find?_eq_none.mpr (fun t ht => by simp [h t ht])]
      rfl

/-- Witness for C2: a whitespace-only address trims to empty and resolves to
`none`. -/
theorem area_resolver_spec_witness :
    trim "  ".toList = [] ∧ detectAreaFromAddress "  ".toList = none :=
  ⟨by decide, (area_resolver_spec "  ".toList).2.1 (by decide)⟩

/-- C10: any address whose trimmed text contains 東京都 resolves to
`tokyo_core`, because the broad prefecture pattern 東京都 belongs to the first
tier's own rules; consequently auto-detection never returns `tokyo_suburb`
for such an address, even when a suburb keyword also matches. -/
theorem tokyo_core_shadows_suburb (address : Str)
    (h : "東京都".toList <:+: trim address) :
    detectAreaFromAddress address = some .tokyo_core ∧
    detectAreaFromAddress address ≠ some .tokyo_suburb := by
  have hne : trim address ≠ [] := fun he => absurd (he ▸ h) (by decide)
  have hm : tierMatches tokyoCoreArea (trim address) = true := by
    simp only [tierMatches, tokyoCoreArea, List.any_cons, List.any_nil, regexTest,
      isSubstr, Bool.or_eq_true, decide_eq_true_eq]
    exact Or.inl (Or.inl h)
  have hd : detectAreaFromAddress address = some .tokyo_core := by
    unfold detectAreaFromAddress
    rw [if_neg hne]
    show findArea (trim address) (tokyoCoreArea :: [tokyoSuburbArea, osakaCoreArea,
      osakaSuburbArea, kyotoCoreArea, nagoyaCoreArea, regionalCityArea, ruralArea]) =
      some .tokyo_core
    rw [findArea_cons, if_pos hm]
    rfl
  refine ⟨hd, ?_⟩
  rw [hd]
  simp

/-- Witness for C10: the address 東京都立川市 contains 東京都 (and the suburb
keyword 立川) and resolves to `tokyo_core`. -/
theorem tokyo_core_shadows_suburb_witness :
    ("東京都".toList <:+: trim "東京都立川市".toList) ∧
    detectAreaFromAddress "東京都立川市".toList = some .tokyo_core :=
  ⟨by decide, (tokyo_core_shadows_suburb "東京都立川市".toList (by decide)).1⟩

/-- Counterexample for C8: with `useBaseline = false` on both runs and the two
inputs differing only in `occupancy` (0.65 vs 0.85), the suggested rent ratio
— and the effective rent rate fed to the projection — still differ, because
`rentSuggestion` reads the baseline monthly revenue unconditionally;
`useBaseline` only gates which outputs the UI displays. -/
theorem baseline_leak_counterexample :
    c8Input.useBaseline = false ∧
    ({ c8Input with occupancy := 0.85 } : InputRecord).useBaseline = false ∧
    (compute c8Input).rentEstimate.rentRateSuggested ≠
      (compute { c8Input with occupancy := 0.85 }).rentEstimate.rentRateSuggested ∧
    (compute c8Input).effectiveRates.rent ≠
      (compute { c8Input with occupancy := 0.85 }).effectiveRates.rent := by
  refine ⟨rfl, rfl, ?_, ?_⟩
  · norm_num [compute, rentSuggestion, baseline, clamp, safeDivQ, effectiveArea,
      getArea_regional_city, regionalCityArea, stationFactor, tradeFactor,
      c8Input, scenario1Input, min_def, max_def]
  · norm_num [compute, rentSuggestion, baseline, clamp, safeDivQ, effectiveArea,
      getArea_regional_city, regionalCityArea, stationFactor, tradeFactor,
      storedRates, suggestedOf, c8Input, scenario1Input, min_def, max_def]

/-- Helper: every output of `compute` that is not derived from the baseline
revenue coincides on two inputs that agree on all fields other than
`occupancy`, `turnover` and `useBaseline`. -/
theorem compute_ignores_occupancy_turnover (i j : InputRecord)
    (haddr : j.address = i.address) (hind : j.industry = i.industry)
    (hsc : j.scenario = i.scenario) (hut : j.unitType = i.unitType)
    (hup : j.unitPrice = i.unitPrice) (hppg : j.peoplePerGroup = i.peoplePerGroup)
    (hadd : j.addGroupsPerDay = i.addGroupsPerDay) (hseats : j.seats = i.seats)
    (had : j.adSpend = i.adSpend) (hdays : j.daysPerMonth = i.daysPerMonth)
    (hada : j.autoDetectArea = i.autoDetectArea) (harea : j.area = i.area)
    (hsd : j.stationDistance = i.stationDistance) (hta : j.tradeArea = i.tradeArea)
    (hspt : j.seatsPerTsubo = i.seatsPerTsubo) (hasr : j.autoSetRentRate = i.autoSetRentRate)
    (hman : j.manualRates = i.manualRates) (hfr : j.foodRate = i.foodRate)
    (hlr : j.laborRate = i.laborRate) (hrr : j.rentRate = i.rentRate) :
    (compute j).rentEstimate.tsubo = (compute i).rentEstimate.tsubo ∧
    (compute j).rentEstimate.rentPerTsubo = (compute i).rentEstimate.rentPerTsubo ∧
    (compute j).rentEstimate.estimatedRentMonthly = (compute i).rentEstimate.estimatedRentMonthly ∧
    (compute j).projection.addRevenueDaily = (compute i).projection.addRevenueDaily ∧
    (compute j).projection.addRevenueMonthly = (compute i).projection.addRevenueMonthly ∧
    (compute j).projection.addGrossProfit = (compute i).projection.addGrossProfit ∧
    (compute j).projection.roas = (compute i).projection.roas ∧
    (compute j).projection.gpRoas = (compute i).projection.gpRoas ∧
    (compute j).projection.breakevenGroupsPerDay_Gross =
      (compute i).projection.breakevenGroupsPerDay_Gross ∧
    (compute j).projection.fl = (compute i).projection.fl := by
  refine ⟨?_, ?_, ?_, ?_, ?_, ?_, ?_, ?_, ?_, ?_⟩ <;>
    simp only [compute, rentSuggestion, normalized, baseline, storedRates, suggestedOf,
      effectiveArea, haddr, hind, hsc, hut, hup, hppg, hadd, hseats, had, hdays, hada,
      harea, hsd, hta, hspt, hasr, hman, hfr, hlr, hrr]

/-- C8 as amended: for two inputs that differ only in `occupancy` and/or
`turnover` (any `useBaseline`), every output NOT derived from the baseline
revenue is identical — the rent estimate (tsubo, rent per tsubo, estimated
monthly rent) and the projection figures that do not involve the rent rate or
baseline figures (daily/monthly incremental revenue, gross profit, ROAS,
gross-profit ROAS, ad-payback breakeven, FL) — while the suggested rent ratio
and the baseline-derived figures may differ even with `useBaseline = false`,
since `useBaseline` only gates display. -/
theorem baseline_leak_amended (i : InputRecord) (occ turn : ℚ) :
    (compute { i with occupancy := occ, turnover := turn }).rentEstimate.tsubo =
      (compute i).rentEstimate.tsubo ∧
    (compute { i with occupancy := occ, turnover := turn }).rentEstimate.rentPerTsubo =
      (compute i).rentEstimate.rentPerTsubo ∧
    (compute { i with occupancy := occ, turnover := turn }).rentEstimate.estimatedRentMonthly =
      (compute i).rentEstimate.estimatedRentMonthly ∧
    (compute { i with occupancy := occ, turnover := turn }).projection.addRevenueDaily =
      (compute i).projection.addRevenueDaily ∧
    (compute { i with occupancy := occ, turnover := turn }).projection.addRevenueMonthly =
      (compute i).projection.addRevenueMonthly ∧
    (compute { i with occupancy := occ, turnover := turn }).projection.addGrossProfit =
      (compute i).projection.addGrossProfit ∧
    (compute { i with occupancy := occ, turnover := turn }).projection.roas =
      (compute i).projection.roas ∧
    (compute { i with occupancy := occ, turnover := turn }).projection.gpRoas =
      (compute i).projection.gpRoas ∧
    (compute { i with occupancy := occ, turnover := turn }).projection.breakevenGroupsPerDay_Gross =
      (compute i).projection.breakevenGroupsPerDay_Gross ∧
    (compute { i with occupancy := occ, turnover := turn }).projection.fl =
      (compute i).projection.fl :=
  compute_ignores_occupancy_turnover i { i with occupancy := occ, turnover := turn }
    rfl rfl rfl rfl rfl rfl rfl rfl rfl rfl rfl rfl rfl rfl rfl rfl rfl rfl rfl rfl

end FoodPL
